import Mathlib

/-!
Verification development for the Google Takeout photo/video extractor
(`src/photo_details.py`).

Shallow embedding conventions:
* Python strings are Lean `String`s; the shared dict `image_hashes` is an
  association list in insertion order with Python dict semantics
  (assignment updates in place if the key exists, otherwise appends).
* Observable side effects — `print(...)` calls and `shutil.copy2`
  invocations — are collected in an explicit trace of `Effect`s, in the
  order the Python statements execute them.
* Behaviour of the external libraries (PIL, moviepy, imagehash, uuid)
  enters through per-item oracle fields of `FileInput`, one constructor
  per control-flow outcome of the corresponding library call in the
  source.  `try/except` blocks of the source are embedded by total
  functions that enumerate the caught outcomes.
* `datetime.strptime(s, "%Y:%m:%d %H:%M:%S")` is modelled on the
  fixed-width zero-padded form (the format produced by EXIF
  `DateTimeOriginal` and by the `strftime` call in `get_video_metadata`);
  `strftime("%Y")` is modelled as a 4-digit zero-padded year, exact for
  years ≥ 1000.
-/

namespace GTakeout

/-- Media kind of a file, as decided by its lower-cased extension
(`photo_details.py` lines 39, 65, 68 and the extension tuples in
`process_files`, lines 91-92). -/
inductive MediaKind
  | image
  | video
  | ignored
deriving DecidableEq, Repr

/-- One value of the shared dict `image_hashes`
(`photo_details.py` line 63): the first-seen source path for a
fingerprint and the running duplicate count. -/
structure RegistryEntry where
  file_path : String
  duplicate_count : Nat
deriving DecidableEq, Repr

/-- The shared dict `image_hashes`, keyed by the stringified average
hash, kept in insertion order. -/
abbrev Registry := List (String × RegistryEntry)

/-- Dict lookup: `image_hashes[img_hash]` / `img_hash in image_hashes`. -/
def regFind : Registry → String → Option RegistryEntry
  | [], _ => none
  | (k, e) :: r, h => if k = h then some e else regFind r h

/-- Dict assignment `image_hashes[img_hash] = v`: update in place when the
key exists, append otherwise (Python dict semantics). -/
def regSet : Registry → String → RegistryEntry → Registry
  | [], h, e => [(h, e)]
  | (k, e0) :: r, h, e => if k = h then (k, e) :: r else (k, e0) :: regSet r h e

/-- Observable side effects of the pipeline: `print` calls and
`shutil.copy2(src, dst)` invocations, in program order. -/
inductive Effect
  | printMsg (s : String)
  | copy (src dst : String)
deriving DecidableEq, Repr

/-- `os.path.join` for the POSIX-style paths the program builds. -/
def pathJoin (a b : String) : String := a ++ "/" ++ b

/-- `os.path.basename`: the part of the path after the last slash. -/
def basename (s : String) : String :=
  String.mk ((s.data.reverse.takeWhile (fun c => c != '/')).reverse)

/-- Python `str.lower`, on the ASCII range (extensions are ASCII). -/
def pyLower (s : String) : String := String.mk (s.data.map Char.toLower)

/-- Index of the last occurrence of `c` in the list, if any. -/
def lastIdxOf (c : Char) : List Char → Option Nat
  | [] => none
  | x :: xs =>
      match lastIdxOf c xs with
      | some i => some (i + 1)
      | none => if x = c then some 0 else none

/-- `os.path.splitext` restricted to basenames (the argument `file` in
`process_files` line 106 has no separator): split at the last dot unless
every character before it is a dot (so `.bashrc` has no extension). -/
def splitext (s : String) : String × String :=
  match lastIdxOf '.' s.data with
  | none => (s, "")
  | some i =>
      if (s.data.take i).all (fun x => x == '.') then (s, "")
      else (String.mk (s.data.take i), String.mk (s.data.drop i))

/-- Outcome of the PIL calls inside `get_image_metadata`
(`photo_details.py` lines 12-20), one constructor per caught path. -/
inductive ImageMetaOutcome
  | raised (msg : String)
  | noExif
  | noDateField
  | dateField (s : String)
deriving DecidableEq, Repr

/-- `get_image_metadata` (lines 11-23): returns the raw
`DateTimeOriginal` value or the sentinel `'Unknown'`; the second
component is the list of printed diagnostics (line 22). -/
def get_image_metadata : ImageMetaOutcome → String → String × List String
  | ImageMetaOutcome.raised msg, file_path =>
      ("Unknown", ["Error reading metadata for " ++ file_path ++ ": " ++ msg])
  | ImageMetaOutcome.noExif, _ => ("Unknown", [])
  | ImageMetaOutcome.noDateField, _ => ("Unknown", [])
  | ImageMetaOutcome.dateField s, _ => (s, [])

/-- Digit character for `n % 10`. -/
def digitChar (n : Nat) : Char := Char.ofNat (48 + n % 10)

/-- Two-digit zero-padded rendering (`%m`, `%d`, `%H`, `%M`, `%S`). -/
def render2 (n : Nat) : String := String.mk [digitChar (n / 10), digitChar n]

/-- Four-digit zero-padded rendering (`%Y`). -/
def render4 (n : Nat) : String :=
  String.mk [digitChar (n / 1000), digitChar (n / 100), digitChar (n / 10), digitChar n]

/-- `strftime('%Y-%m-%d')`. -/
def strftime_ymd (y m d : Nat) : String :=
  render4 y ++ "-" ++ render2 m ++ "-" ++ render2 d

/-- `strftime('%Y:%m:%d %H:%M:%S')` (used in `get_video_metadata`). -/
def strftime_colon (y mo d hh mi ss : Nat) : String :=
  render4 y ++ ":" ++ render2 mo ++ ":" ++ render2 d ++ " " ++
    render2 hh ++ ":" ++ render2 mi ++ ":" ++ render2 ss

/-- Outcome of the moviepy calls inside `get_video_metadata`
(lines 26-32). `creationTime` carries the components of the `datetime`
object found under `creation_time`. -/
inductive VideoMetaOutcome
  | raised (msg : String)
  | noCreationTime
  | creationTime (y mo d hh mi ss : Nat)
deriving DecidableEq, Repr

/-- `get_video_metadata` (lines 25-35): the creation time rendered via
`strftime('%Y:%m:%d %H:%M:%S')` or the sentinel `'Unknown'`, plus the
printed diagnostics (line 34). -/
def get_video_metadata : VideoMetaOutcome → String → String × List String
  | VideoMetaOutcome.raised msg, file_path =>
      ("Unknown", ["Error reading metadata for " ++ file_path ++ ": " ++ msg])
  | VideoMetaOutcome.noCreationTime, _ => ("Unknown", [])
  | VideoMetaOutcome.creationTime y mo d hh mi ss, _ =>
      (strftime_colon y mo d hh mi ss, [])

/-- Numeric value of a digit character. -/
def digitVal (c : Char) : Nat := c.toNat - 48

/-- Two digits to a number. -/
def read2 (a b : Char) : Nat := digitVal a * 10 + digitVal b

/-- Four digits to a number. -/
def read4 (a b c d : Char) : Nat :=
  digitVal a * 1000 + digitVal b * 100 + digitVal c * 10 + digitVal d

/-- Gregorian leap year, as validated by `datetime`. -/
def isLeap (y : Nat) : Bool := (y % 4 == 0 && y % 100 != 0) || y % 400 == 0

/-- Days in a month, as validated by `datetime`. -/
def daysInMonth (y m : Nat) : Nat :=
  if m = 2 then (if isLeap y then 29 else 28)
  else if m = 4 ∨ m = 6 ∨ m = 9 ∨ m = 11 then 30
  else 31

/-- `datetime.strptime(s, '%Y:%m:%d %H:%M:%S')`, on the fixed-width
zero-padded form; returns the (year, month, day) that `strftime` then
prints, or an error when the text or the calendar values are rejected
(in the source a `ValueError` escaping to the `except` at line 87). -/
def strptime_ymd_hms (s : String) : Except String (Nat × Nat × Nat) :=
  match s.data with
  | [y1, y2, y3, y4, c1, m1, m2, c2, d1, d2, c3, h1, h2, c4, mi1, mi2, c5, s1, s2] =>
      if ([y1, y2, y3, y4, m1, m2, d1, d2, h1, h2, mi1, mi2, s1, s2].all Char.isDigit
          && c1 == ':' && c2 == ':' && c3 == ' ' && c4 == ':' && c5 == ':') then
        let y := read4 y1 y2 y3 y4
        let mo := read2 m1 m2
        let d := read2 d1 d2
        let hh := read2 h1 h2
        let mi := read2 mi1 mi2
        let ss := read2 s1 s2
        if 1 ≤ y ∧ 1 ≤ mo ∧ mo ≤ 12 ∧ 1 ≤ d ∧ d ≤ daysInMonth y mo ∧
            hh ≤ 23 ∧ mi ≤ 59 ∧ ss ≤ 59 then
          Except.ok (y, mo, d)
        else Except.error "time data does not match format"
      else Except.error "time data does not match format"
  | _ => Except.error "time data does not match format"

/-- The date component of the output name, from lines 52-55 and 72-75:
`'unknown'` when the extracted value is the sentinel, otherwise the
parsed date rendered as `YYYY-MM-DD`; a parse failure is an exception. -/
def format_date_taken (date_taken : String) : Except String String :=
  if date_taken = "Unknown" then Except.ok "unknown"
  else
    match strptime_ymd_hms date_taken with
    | Except.error e => Except.error e
    | Except.ok t => Except.ok (strftime_ymd t.1 t.2.1 t.2.2)

/-- Run configuration: the extension tuples and the two output
subdirectories (`process_files` lines 91-95). -/
structure Config where
  image_extensions : List String
  video_extensions : List String
  images_output_dir : String
  videos_output_dir : String
deriving Repr

/-- The configuration built by `process_files` (lines 91-95). -/
def process_files_config (output_dir : String) : Config :=
  { image_extensions := [".jpg", ".jpeg", ".png", ".gif", ".bmp", ".tiff"],
    video_extensions := [".mp4", ".avi", ".mov", ".mkv"],
    images_output_dir := pathJoin output_dir "images",
    videos_output_dir := pathJoin output_dir "videos" }

/-- Extension-based kind classification (lines 39, 65, 68: the image
test runs first, then the video test, otherwise the file is ignored). -/
def kindOf (cfg : Config) (ext : String) : MediaKind :=
  if ext ∈ cfg.image_extensions then MediaKind.image
  else if ext ∈ cfg.video_extensions then MediaKind.video
  else MediaKind.ignored

/-- Classification of a walked file name: the extension is obtained with
`os.path.splitext(file)[1].lower()` (`process_files` line 106) and then
matched against the extension tuples. -/
def classify (cfg : Config) (fname : String) : MediaKind :=
  kindOf cfg (pyLower (splitext fname).2)

/-- Outcome of `Image.open` + `imagehash.average_hash` (lines 44-45):
either the stringified hash or an exception, which the source lets
escape to the `except` at line 87. -/
inductive HashOutcome
  | raised (msg : String)
  | ok (h : String)
deriving DecidableEq, Repr

/-- One work item together with the oracle describing what the external
libraries return for it.  `uuid` is the value `str(uuid.uuid4())` drawn
at line 71 (fresh per item by the uuid4 contract). -/
structure FileInput where
  file_path : String
  ext : String
  imeta : ImageMetaOutcome
  vmeta : VideoMetaOutcome
  hash : HashOutcome
  uuid : String
deriving DecidableEq, Repr

/-- The duplicate-ordinal filename component `_duplicate_{n}` of
line 57, empty for a non-duplicate (lines 78, 80). -/
def dupSuffixStr : Option Nat → String
  | some n => "_duplicate_" ++ toString n
  | none => ""

/-- The pure placement computation shared by lines 52-58 and 71-82:
from the media kind, extracted timestamp, identity (hash or uuid),
duplicate ordinal and extension, the destination subdirectory and file
name; the error case is the `ValueError` of `strptime`. -/
def place (kind : MediaKind) (date_taken identity : String) (ordinal : Option Nat)
    (ext : String) (cfg : Config) : Except String (String × String) :=
  match format_date_taken date_taken with
  | Except.error e => Except.error e
  | Except.ok date_str =>
      Except.ok
        (match kind with
         | MediaKind.image => cfg.images_output_dir
         | _ => cfg.videos_output_dir,
         date_str ++ "-" ++ identity ++ dupSuffixStr ordinal ++ ext)

/-- The `except` message of line 88. -/
def errP (file_path msg : String) : String :=
  "Error processing " ++ file_path ++ ": " ++ msg

/-- The success print of line 86. -/
def finalMsg (file_path date_taken unique_id new_file_path : String) : String :=
  "File: " ++ basename file_path ++ ", Date Taken: " ++ date_taken ++
    ", Unique ID: " ++ unique_id ++ ", Copied to: " ++ new_file_path

/-- The duplicate-detected print of line 49 (the source prints the whole
dict entry; the embedding keeps its `file_path` field). -/
def dupDetectedMsg (file_path original : String) : String :=
  "Duplicate image detected: " ++ file_path ++ " is a duplicate of " ++ original

/-- `process_file` (`photo_details.py` lines 37-88).  Returns the dict
after the call together with the trace of prints and copies.  Exceptions
raised inside the body are caught at line 87, so a failing item still
keeps every dict mutation made before the raise. -/
def process_file (cfg : Config) (it : FileInput) (image_hashes : Registry) :
    Registry × List Effect :=
  if it.ext ∈ cfg.image_extensions then
    -- line 40
    let md := get_image_metadata it.imeta it.file_path
    let pre : List Effect := md.2.map Effect.printMsg
    -- lines 44-45: decode and hash; a raise lands in line 87-88
    match it.hash with
    | HashOutcome.raised msg =>
        (image_hashes, pre ++ [Effect.printMsg (errP it.file_path msg)])
    | HashOutcome.ok img_hash =>
        match regFind image_hashes img_hash with
        | some entry =>
            -- lines 48-61: the count is read pre-increment (line 50),
            -- the entry is incremented (line 51), then the name is built
            let reg2 := regSet image_hashes img_hash
              ⟨entry.file_path, entry.duplicate_count + 1⟩
            match place MediaKind.image md.1 img_hash (some entry.duplicate_count)
                it.ext cfg with
            | Except.error e =>
                (reg2, pre ++ [Effect.printMsg (dupDetectedMsg it.file_path entry.file_path),
                  Effect.printMsg (errP it.file_path e)])
            | Except.ok sd =>
                let duplicate_file_path := pathJoin sd.1 sd.2
                (reg2, pre ++ [Effect.printMsg (dupDetectedMsg it.file_path entry.file_path),
                  Effect.copy it.file_path duplicate_file_path,
                  Effect.printMsg ("Duplicate copied to: " ++ duplicate_file_path)])
        | none =>
            -- line 63, then lines 71-86
            let reg2 := regSet image_hashes img_hash ⟨it.file_path, 1⟩
            match place MediaKind.image md.1 img_hash none it.ext cfg with
            | Except.error e =>
                (reg2, pre ++ [Effect.printMsg (errP it.file_path e)])
            | Except.ok sd =>
                let new_file_path := pathJoin sd.1 sd.2
                (reg2, pre ++ [Effect.copy it.file_path new_file_path,
                  Effect.printMsg (finalMsg it.file_path md.1 it.uuid new_file_path)])
  else if it.ext ∈ cfg.video_extensions then
    -- lines 65-67, then 71-86
    let md := get_video_metadata it.vmeta it.file_path
    let pre : List Effect := md.2.map Effect.printMsg
    match place MediaKind.video md.1 it.uuid none it.ext cfg with
    | Except.error e =>
        (image_hashes, pre ++ [Effect.printMsg (errP it.file_path e)])
    | Except.ok sd =>
        let new_file_path := pathJoin sd.1 sd.2
        (image_hashes, pre ++ [Effect.copy it.file_path new_file_path,
          Effect.printMsg (finalMsg it.file_path md.1 it.uuid new_file_path)])
  else
    -- lines 68-69
    (image_hashes, [])

/-- Sequentialised processing of a list of items: the dict after folding
`process_file` over them (the effect traces are examined per item). -/
def runItems (cfg : Config) (items : List FileInput) (reg : Registry) : Registry :=
  items.foldl (fun r x => (process_file cfg x r).1) reg

/-! Interleaving model of the registry critical section.

`process_files` (line 109) runs `process_file` on a
`ThreadPoolExecutor(max_workers=2)`; the dict accesses of two workers on
the same fingerprint can interleave, because the membership test of
line 48 and the assignment of line 63 (or the increment of line 51) are
separate bytecode steps with possible thread switches between them.  A
worker position inside lines 48-63 is a `TPhase`; a scheduler step runs
one worker for one dict access. -/

/-- Position of one worker inside lines 48-63 for a same-fingerprint
image item: `ready` = about to evaluate `img_hash in image_hashes`
(line 48); `branch b` = test evaluated with result `b`; `done o` =
critical section finished, `o` records whether the worker took the
first-seen path (line 63). -/
inductive TPhase
  | ready
  | branch (sawDup : Bool)
  | done (observedFirstSeen : Bool)
deriving DecidableEq, Repr

/-- One scheduler-chosen step of a worker processing an item with
fingerprint `h` and source path `p`: the membership test (line 48), then
either the increment of line 51 (duplicate path, granted atomicity here)
or the assignment of line 63 (first-seen path). -/
def stepThread (h p : String) (reg : Registry) : TPhase → Registry × TPhase
  | TPhase.ready => (reg, TPhase.branch (regFind reg h).isSome)
  | TPhase.branch true =>
      (match regFind reg h with
       | some e => regSet reg h ⟨e.file_path, e.duplicate_count + 1⟩
       | none => reg,
       TPhase.done false)
  | TPhase.branch false => (regSet reg h ⟨p, 1⟩, TPhase.done true)
  | TPhase.done b => (reg, TPhase.done b)

/-- Shared dict plus the positions of the two workers. -/
structure RaceState where
  reg : Registry
  t1 : TPhase
  t2 : TPhase
deriving DecidableEq, Repr

/-- One scheduler step: `false` runs worker 1 (path `p1`), `true` runs
worker 2 (path `p2`); both race on fingerprint `h`. -/
def raceStep (h p1 p2 : String) (s : RaceState) (choice : Bool) : RaceState :=
  if choice then
    let r := stepThread h p2 s.reg s.t2
    ⟨r.1, s.t1, r.2⟩
  else
    let r := stepThread h p1 s.reg s.t1
    ⟨r.1, r.2, s.t2⟩

/-- Run a schedule from the two workers both at line 48. -/
def runSched (h p1 p2 : String) (sched : List Bool) (reg : Registry) : RaceState :=
  sched.foldl (raceStep h p1 p2) ⟨reg, TPhase.ready, TPhase.ready⟩

/-- An image item whose library calls all succeed, carrying fingerprint
`h`: the premise under which lines 48-63 run. -/
def GoodImage (cfg : Config) (h : String) (it : FileInput) : Prop :=
  it.ext ∈ cfg.image_extensions ∧ it.hash = HashOutcome.ok h

instance (cfg : Config) (h : String) (it : FileInput) :
    Decidable (GoodImage cfg h it) := instDecidableAnd

/-- Relation between an extracted timestamp and the date component of
the destination name, following the spec wording for the placement
policy: the literal `unknown` when the timestamp is the sentinel,
otherwise the parsed date rendered as `YYYY-MM-DD`. -/
def DateComponentOf (date_taken d : String) : Prop :=
  (date_taken = "Unknown" ∧ d = "unknown") ∨
  (¬ date_taken = "Unknown" ∧
    ∃ y mo dd, strptime_ymd_hms date_taken = Except.ok (y, mo, dd) ∧
      d = strftime_ymd y mo dd)

/-- First ten characters of a file name: for a name built from a known
date this is exactly the `YYYY-MM-DD` date component. -/
def dateComponent (name : String) : String := String.mk (name.data.take 10)

/-! Concrete inputs used by the closed counterexample and witness runs. -/

/-- The configuration of a run with output directory `out`. -/
def cexCfg : Config := process_files_config "out"

/-- First byte-identical JPEG of the spec scenario. -/
def cexItem1 : FileInput :=
  ⟨"in/a.jpg", ".jpg", ImageMetaOutcome.dateField "2023:05:01 10:00:00",
    VideoMetaOutcome.noCreationTime, HashOutcome.ok "f00f", "u1"⟩

/-- Second byte-identical JPEG of the spec scenario. -/
def cexItem2 : FileInput :=
  ⟨"in/b.jpg", ".jpg", ImageMetaOutcome.dateField "2023:05:01 10:00:00",
    VideoMetaOutcome.noCreationTime, HashOutcome.ok "f00f", "u2"⟩

/-- Image with the same fingerprint as `cexItem2` but a capture
timestamp one hour later on the same day. -/
def cexItemB : FileInput :=
  ⟨"in/d.jpg", ".jpg", ImageMetaOutcome.dateField "2023:05:01 11:00:00",
    VideoMetaOutcome.noCreationTime, HashOutcome.ok "f00f", "u4"⟩

/-- Video item with missing creation time, upper-case source name. -/
def cexVid : FileInput :=
  ⟨"in/CLIP.MP4", ".mp4", ImageMetaOutcome.noExif,
    VideoMetaOutcome.noCreationTime, HashOutcome.raised "x", "uuid1"⟩

/-- Image whose payload fails to decode at lines 44-45. -/
def cexBad : FileInput :=
  ⟨"in/c.jpg", ".jpg", ImageMetaOutcome.noExif, VideoMetaOutcome.noCreationTime,
    HashOutcome.raised "cannot identify image file", "u3"⟩

/-- A registry already holding the shared fingerprint `f00f`. -/
def cexReg0 : Registry := [("f00f", ⟨"in/a.jpg", 1⟩)]

/-! Helper lemmas about the embedded operations. -/

theorem regFind_regSet_self (r : Registry) (k : String) (v : RegistryEntry) :
    regFind (regSet r k v) k = some v := by
  induction r with
  | nil => simp [regSet, regFind]
  | cons p r ih =>
      obtain ⟨a, b⟩ := p
      by_cases h : a = k
      · simp [regSet, regFind, h]
      · simp [regSet, regFind, h, ih]

theorem place_image_ok (dt i : String) (o : Option Nat) (e : String) (cfg : Config)
    (d : String) (hd : format_date_taken dt = Except.ok d) :
    place MediaKind.image dt i o e cfg =
      Except.ok (cfg.images_output_dir, d ++ "-" ++ i ++ dupSuffixStr o ++ e) := by
  unfold place
  rw [hd]

theorem place_video_ok (dt i : String) (o : Option Nat) (e : String) (cfg : Config)
    (d : String) (hd : format_date_taken dt = Except.ok d) :
    place MediaKind.video dt i o e cfg =
      Except.ok (cfg.videos_output_dir, d ++ "-" ++ i ++ dupSuffixStr o ++ e) := by
  unfold place
  rw [hd]

theorem place_err (kind : MediaKind) (dt i : String) (o : Option Nat) (e : String)
    (cfg : Config) (msg : String) (hd : format_date_taken dt = Except.error msg) :
    place kind dt i o e cfg = Except.error msg := by
  unfold place
  rw [hd]

theorem process_file_image_raised (cfg : Config) (it : FileInput) (reg : Registry)
    (m : String) (him : it.ext ∈ cfg.image_extensions)
    (hh : it.hash = HashOutcome.raised m) :
    process_file cfg it reg =
      (reg, ((get_image_metadata it.imeta it.file_path).2.map Effect.printMsg) ++
        [Effect.printMsg (errP it.file_path m)]) := by
  simp only [process_file, him, if_true, hh]

theorem process_file_image_dup (cfg : Config) (it : FileInput) (reg : Registry)
    (hsh : String) (entry : RegistryEntry) (d : String)
    (him : it.ext ∈ cfg.image_extensions)
    (hh : it.hash = HashOutcome.ok hsh)
    (hf : regFind reg hsh = some entry)
    (hd : format_date_taken (get_image_metadata it.imeta it.file_path).1 = Except.ok d) :
    process_file cfg it reg =
      (regSet reg hsh ⟨entry.file_path, entry.duplicate_count + 1⟩,
       ((get_image_metadata it.imeta it.file_path).2.map Effect.printMsg) ++
         [Effect.printMsg (dupDetectedMsg it.file_path entry.file_path),
          Effect.copy it.file_path (pathJoin cfg.images_output_dir
            (d ++ "-" ++ hsh ++ "_duplicate_" ++ toString entry.duplicate_count ++ it.ext)),
          Effect.printMsg ("Duplicate copied to: " ++ pathJoin cfg.images_output_dir
            (d ++ "-" ++ hsh ++ "_duplicate_" ++ toString entry.duplicate_count ++ it.ext))]) := by
  have hp := place_image_ok (get_image_metadata it.imeta it.file_path).1 hsh
    (some entry.duplicate_count) it.ext cfg d hd
  simp only [process_file, him, if_true, hh, hf, hp, dupSuffixStr, String.append_assoc]

theorem process_file_image_dup_err (cfg : Config) (it : FileInput) (reg : Registry)
    (hsh : String) (entry : RegistryEntry) (msg : String)
    (him : it.ext ∈ cfg.image_extensions)
    (hh : it.hash = HashOutcome.ok hsh)
    (hf : regFind reg hsh = some entry)
    (hd : format_date_taken (get_image_metadata it.imeta it.file_path).1 = Except.error msg) :
    process_file cfg it reg =
      (regSet reg hsh ⟨entry.file_path, entry.duplicate_count + 1⟩,
       ((get_image_metadata it.imeta it.file_path).2.map Effect.printMsg) ++
         [Effect.printMsg (dupDetectedMsg it.file_path entry.file_path),
          Effect.printMsg (errP it.file_path msg)]) := by
  have hp := place_err MediaKind.image (get_image_metadata it.imeta it.file_path).1 hsh
    (some entry.duplicate_count) it.ext cfg msg hd
  simp only [process_file, him, if_true, hh, hf, hp]

theorem process_file_image_first (cfg : Config) (it : FileInput) (reg : Registry)
    (hsh : String) (d : String)
    (him : it.ext ∈ cfg.image_extensions)
    (hh : it.hash = HashOutcome.ok hsh)
    (hf : regFind reg hsh = none)
    (hd : format_date_taken (get_image_metadata it.imeta it.file_path).1 = Except.ok d) :
    process_file cfg it reg =
      (regSet reg hsh ⟨it.file_path, 1⟩,
       ((get_image_metadata it.imeta it.file_path).2.map Effect.printMsg) ++
         [Effect.copy it.file_path (pathJoin cfg.images_output_dir (d ++ "-" ++ hsh ++ it.ext)),
          Effect.printMsg (finalMsg it.file_path (get_image_metadata it.imeta it.file_path).1
            it.uuid (pathJoin cfg.images_output_dir (d ++ "-" ++ hsh ++ it.ext)))]) := by
  have hp := place_image_ok (get_image_metadata it.imeta it.file_path).1 hsh
    none it.ext cfg d hd
  simp only [process_file, him, if_true, hh, hf, hp, dupSuffixStr, String.append_empty]

theorem process_file_image_first_err (cfg : Config) (it : FileInput) (reg : Registry)
    (hsh : String) (msg : String)
    (him : it.ext ∈ cfg.image_extensions)
    (hh : it.hash = HashOutcome.ok hsh)
    (hf : regFind reg hsh = none)
    (hd : format_date_taken (get_image_metadata it.imeta it.file_path).1 = Except.error msg) :
    process_file cfg it reg =
      (regSet reg hsh ⟨it.file_path, 1⟩,
       ((get_image_metadata it.imeta it.file_path).2.map Effect.printMsg) ++
         [Effect.printMsg (errP it.file_path msg)]) := by
  have hp := place_err MediaKind.image (get_image_metadata it.imeta it.file_path).1 hsh
    none it.ext cfg msg hd
  simp only [process_file, him, if_true, hh, hf, hp]

theorem process_file_video (cfg : Config) (it : FileInput) (reg : Registry) (d : String)
    (him : it.ext ∉ cfg.image_extensions)
    (hv : it.ext ∈ cfg.video_extensions)
    (hd : format_date_taken (get_video_metadata it.vmeta it.file_path).1 = Except.ok d) :
    process_file cfg it reg =
      (reg, ((get_video_metadata it.vmeta it.file_path).2.map Effect.printMsg) ++
        [Effect.copy it.file_path (pathJoin cfg.videos_output_dir (d ++ "-" ++ it.uuid ++ it.ext)),
         Effect.printMsg (finalMsg it.file_path (get_video_metadata it.vmeta it.file_path).1
           it.uuid (pathJoin cfg.videos_output_dir (d ++ "-" ++ it.uuid ++ it.ext)))]) := by
  have hp := place_video_ok (get_video_metadata it.vmeta it.file_path).1 it.uuid
    none it.ext cfg d hd
  simp only [process_file, him, if_false, hv, if_true, hp, dupSuffixStr, String.append_empty, String.append_assoc]

theorem process_file_video_err (cfg : Config) (it : FileInput) (reg : Registry) (msg : String)
    (him : it.ext ∉ cfg.image_extensions)
    (hv : it.ext ∈ cfg.video_extensions)
    (hd : format_date_taken (get_video_metadata it.vmeta it.file_path).1 = Except.error msg) :
    process_file cfg it reg =
      (reg, ((get_video_metadata it.vmeta it.file_path).2.map Effect.printMsg) ++
        [Effect.printMsg (errP it.file_path msg)]) := by
  have hp := place_err MediaKind.video (get_video_metadata it.vmeta it.file_path).1 it.uuid
    none it.ext cfg msg hd
  simp only [process_file, him, if_false, hv, if_true, hp]

theorem process_file_ignored (cfg : Config) (it : FileInput) (reg : Registry)
    (him : it.ext ∉ cfg.image_extensions)
    (hv : it.ext ∉ cfg.video_extensions) :
    process_file cfg it reg = (reg, []) := by
  simp only [process_file, him, hv, if_false]

theorem process_file_reg_of_good_some (cfg : Config) (h : String) (it : FileInput)
    (reg : Registry) (entry : RegistryEntry)
    (hg : GoodImage cfg h it) (hf : regFind reg h = some entry) :
    (process_file cfg it reg).1 =
      regSet reg h ⟨entry.file_path, entry.duplicate_count + 1⟩ := by
  obtain ⟨him, hh⟩ := hg
  cases hfd : format_date_taken (get_image_metadata it.imeta it.file_path).1 with
  | error msg => rw [process_file_image_dup_err cfg it reg h entry msg him hh hf hfd]
  | ok d => rw [process_file_image_dup cfg it reg h entry d him hh hf hfd]

theorem process_file_reg_of_good_none (cfg : Config) (h : String) (it : FileInput)
    (reg : Registry) (hg : GoodImage cfg h it) (hf : regFind reg h = none) :
    (process_file cfg it reg).1 = regSet reg h ⟨it.file_path, 1⟩ := by
  obtain ⟨him, hh⟩ := hg
  cases hfd : format_date_taken (get_image_metadata it.imeta it.file_path).1 with
  | error msg => rw [process_file_image_first_err cfg it reg h msg him hh hf hfd]
  | ok d => rw [process_file_image_first cfg it reg h d him hh hf hfd]

theorem runItems_good_count (cfg : Config) (h : String) :
    ∀ (items : List FileInput) (reg : Registry) (e : RegistryEntry),
      (∀ x ∈ items, GoodImage cfg h x) → regFind reg h = some e →
      regFind (runItems cfg items reg) h =
        some ⟨e.file_path, e.duplicate_count + items.length⟩ := by
  intro items
  induction items with
  | nil =>
      intro reg e _ hf
      obtain ⟨fp, c⟩ := e
      simpa [runItems] using hf
  | cons x xs ih =>
      intro reg e hall hf
      have hx : GoodImage cfg h x := hall x (List.mem_cons_self x xs)
      have h1 : (process_file cfg x reg).1 =
          regSet reg h ⟨e.file_path, e.duplicate_count + 1⟩ :=
        process_file_reg_of_good_some cfg h x reg e hx hf
      have h2 : regFind ((process_file cfg x reg).1) h =
          some ⟨e.file_path, e.duplicate_count + 1⟩ := by
        rw [h1]
        exact regFind_regSet_self reg h ⟨e.file_path, e.duplicate_count + 1⟩
      have h3 := ih ((process_file cfg x reg).1) ⟨e.file_path, e.duplicate_count + 1⟩
        (fun y hy => hall y (List.mem_cons_of_mem x hy)) h2
      have hrun : runItems cfg (x :: xs) reg = runItems cfg xs ((process_file cfg x reg).1) := rfl
      have hlen : e.duplicate_count + 1 + xs.length = e.duplicate_count + (x :: xs).length := by
        simp [List.length_cons]
        omega
      rw [hrun, h3, hlen]

/-- After a good first item and `k` further good same-fingerprint items
starting from the empty dict, the entry holds the first path and count
`k + 1`. -/
theorem runItems_from_empty (cfg : Config) (h : String) (first : FileInput)
    (rest : List FileInput) (hfirst : GoodImage cfg h first)
    (hrest : ∀ x ∈ rest, GoodImage cfg h x) :
    regFind (runItems cfg (first :: rest) []) h =
      some ⟨first.file_path, 1 + rest.length⟩ := by
  have h0 : regFind [] h = none := rfl
  have h1 : (process_file cfg first []).1 = regSet [] h ⟨first.file_path, 1⟩ :=
    process_file_reg_of_good_none cfg h first [] hfirst h0
  have h2 : regFind ((process_file cfg first []).1) h = some ⟨first.file_path, 1⟩ := by
    rw [h1]
    exact regFind_regSet_self [] h ⟨first.file_path, 1⟩
  have h3 := runItems_good_count cfg h rest ((process_file cfg first []).1)
    ⟨first.file_path, 1⟩ hrest h2
  exact h3

/-! Claim theorems. -/

/-- C1, counterexample: two byte-identical JPEGs with EXIF date
`2023:05:01 10:00:00`; the second is placed with suffix `_duplicate_1`,
not `_duplicate_2` as the claim states, and no `_duplicate_2` copy is
made. -/
theorem C1_counterexample :
    (process_file cexCfg cexItem2 (process_file cexCfg cexItem1 []).1).2 =
      [Effect.printMsg (dupDetectedMsg "in/b.jpg" "in/a.jpg"),
       Effect.copy "in/b.jpg" "out/images/2023-05-01-f00f_duplicate_1.jpg",
       Effect.printMsg "Duplicate copied to: out/images/2023-05-01-f00f_duplicate_1.jpg"] ∧
    Effect.copy "in/b.jpg" "out/images/2023-05-01-f00f_duplicate_2.jpg" ∉
      (process_file cexCfg cexItem2 (process_file cexCfg cexItem1 []).1).2 := by
  constructor
  · decide
  · decide

/-- C1, amended: the duplicate ordinal is the pre-increment stored count
and the canonical entry is created with count 1, so after a good first
item and `rest.length` further same-fingerprint items the next match is
labelled `_duplicate_{(first :: rest).length}`: ordinals start at 1 (the
first detected duplicate is `_duplicate_1`) and for N same-fingerprint
items form the set {1, …, N−1}. -/
theorem C1_ordinal_preincrement (cfg : Config) (h : String) (first : FileInput)
    (rest : List FileInput) (it : FileInput) (d : String)
    (hfirst : GoodImage cfg h first) (hrest : ∀ x ∈ rest, GoodImage cfg h x)
    (hit : GoodImage cfg h it)
    (hd : format_date_taken (get_image_metadata it.imeta it.file_path).1 = Except.ok d) :
    Effect.copy it.file_path
        (pathJoin cfg.images_output_dir
          (d ++ "-" ++ h ++ "_duplicate_" ++ toString (first :: rest).length ++ it.ext))
      ∈ (process_file cfg it (runItems cfg (first :: rest) [])).2 := by
  have hfind := runItems_from_empty cfg h first rest hfirst hrest
  obtain ⟨him, hh⟩ := hit
  have hlen : 1 + rest.length = (first :: rest).length := by
    simp [List.length_cons]
    omega
  rw [hlen] at hfind
  rw [process_file_image_dup cfg it (runItems cfg (first :: rest) []) h
    ⟨first.file_path, (first :: rest).length⟩ d him hh hfind hd]
  simp

/-- C1, witness: the amended theorem applied to the two concrete JPEGs;
the second item gets ordinal 1. -/
theorem C1_ordinal_preincrement_witness :
    Effect.copy cexItem2.file_path
        (pathJoin cexCfg.images_output_dir
          ("2023-05-01" ++ "-" ++ "f00f" ++ "_duplicate_" ++
            toString ([cexItem1] : List FileInput).length ++ cexItem2.ext))
      ∈ (process_file cexCfg cexItem2 (runItems cexCfg [cexItem1] [])).2 :=
  C1_ordinal_preincrement cexCfg "f00f" cexItem1 [] cexItem2 "2023-05-01"
    (by decide) (by simp) (by decide) (by rfl)

/-- C2: the register-or-detect sequence of lines 48-63 is not atomic:
under the schedule where both workers run the line-48 membership test
before either runs the line-63 assignment, both observe first-seen, and
the final entry holds the second path with count 1 (the first worker's
registration is lost). -/
theorem C2_first_seen_race :
    (runSched "h" "a" "b" [false, true, false, true] []).t1 = TPhase.done true ∧
    (runSched "h" "a" "b" [false, true, false, true] []).t2 = TPhase.done true ∧
    (runSched "h" "a" "b" [false, true, false, true] []).reg = [("h", ⟨"b", 1⟩)] := by
  refine ⟨by decide, by decide, by decide⟩

/-- C7: a file whose extension is in neither extension tuple terminates
with the dict unchanged and an empty effect trace: nothing is copied,
nothing is printed (so no failure is reported), and the fingerprint
oracle is never consulted (the result does not depend on `hs`). -/
theorem C7_ignored_no_action (cfg : Config) (p e : String) (im : ImageMetaOutcome)
    (vm : VideoMetaOutcome) (hs : HashOutcome) (u : String) (reg : Registry)
    (him : e ∉ cfg.image_extensions) (hv : e ∉ cfg.video_extensions) :
    process_file cfg ⟨p, e, im, vm, hs, u⟩ reg = (reg, []) :=
  process_file_ignored cfg ⟨p, e, im, vm, hs, u⟩ reg him hv

/-- C7, witness: a `.txt` file under the `process_files` configuration. -/
theorem C7_ignored_no_action_witness :
    process_file cexCfg ⟨"in/n.txt", ".txt", ImageMetaOutcome.noExif,
      VideoMetaOutcome.noCreationTime, HashOutcome.raised "boom", "u9"⟩ [] = ([], []) :=
  C7_ignored_no_action cexCfg "in/n.txt" ".txt" ImageMetaOutcome.noExif
    VideoMetaOutcome.noCreationTime (HashOutcome.raised "boom") "u9" []
    (by decide) (by decide)

/-- C8: the placement computation of lines 52-58 and 71-82 is a pure
function of (kind, timestamp, identity, ordinal, extension): two
invocations with identical inputs under the same configuration yield the
identical subdirectory and file name. -/
theorem C8_place_deterministic (cfg : Config) (k1 k2 : MediaKind) (t1 t2 i1 i2 : String)
    (o1 o2 : Option Nat) (e1 e2 : String)
    (hk : k1 = k2) (ht : t1 = t2) (hi : i1 = i2) (ho : o1 = o2) (he : e1 = e2) :
    place k1 t1 i1 o1 e1 cfg = place k2 t2 i2 o2 e2 cfg := by
  rw [hk, ht, hi, ho, he]

/-- C8, witness: determinism of `place` at a concrete input. -/
theorem C8_place_deterministic_witness :
    place MediaKind.image "2023:05:01 10:00:00" "f00f" (some 1) ".jpg" cexCfg =
      place MediaKind.image "2023:05:01 10:00:00" "f00f" (some 1) ".jpg" cexCfg :=
  C8_place_deterministic cexCfg MediaKind.image MediaKind.image _ _ _ _ _ _ _ _
    rfl rfl rfl rfl rfl

theorem format_ok_DateComponentOf (dt d : String)
    (hd : format_date_taken dt = Except.ok d) : DateComponentOf dt d := by
  unfold format_date_taken at hd
  by_cases h : dt = "Unknown"
  · rw [if_pos h] at hd
    injection hd with h2
    exact Or.inl ⟨h, h2.symm⟩
  · rw [if_neg h] at hd
    cases hp : strptime_ymd_hms dt with
    | error e => rw [hp] at hd; simp at hd
    | ok t =>
        rw [hp] at hd
        obtain ⟨y, mo, dd⟩ := t
        simp only [] at hd
        injection hd with h2
        exact Or.inr ⟨h, y, mo, dd, hp, h2.symm⟩

/-- C4, counterexample: an image whose EXIF data is present but lacks
`DateTimeOriginal` yields the sentinel with an empty diagnostic trace —
no diagnostic is reported, contrary to the claim. -/
theorem C4_counterexample :
    (get_image_metadata ImageMetaOutcome.noDateField "in/a.jpg").1 = "Unknown" ∧
    (get_image_metadata ImageMetaOutcome.noDateField "in/a.jpg").2 = [] :=
  ⟨rfl, rfl⟩

/-- C4, amended: both extractors are total — every outcome yields either
the raw capture-time value or the sentinel `'Unknown'`, never an
exception past the boundary; an exception inside the `try` block
(open or parse failure) degrades to the sentinel plus a printed
diagnostic, while a merely absent field degrades to the sentinel with no
diagnostic; there is no other side effect. -/
theorem C4_metadata_total (p m s : String) (o : ImageMetaOutcome) (vo : VideoMetaOutcome)
    (y mo d hh mi ss : Nat) :
    get_image_metadata (ImageMetaOutcome.dateField s) p = (s, []) ∧
    get_image_metadata ImageMetaOutcome.noExif p = ("Unknown", []) ∧
    get_image_metadata ImageMetaOutcome.noDateField p = ("Unknown", []) ∧
    get_image_metadata (ImageMetaOutcome.raised m) p =
      ("Unknown", ["Error reading metadata for " ++ p ++ ": " ++ m]) ∧
    get_video_metadata VideoMetaOutcome.noCreationTime p = ("Unknown", []) ∧
    get_video_metadata (VideoMetaOutcome.creationTime y mo d hh mi ss) p =
      (strftime_colon y mo d hh mi ss, []) ∧
    get_video_metadata (VideoMetaOutcome.raised m) p =
      ("Unknown", ["Error reading metadata for " ++ p ++ ": " ++ m]) ∧
    ((get_image_metadata o p).1 = "Unknown" ∨
      ∃ s2, o = ImageMetaOutcome.dateField s2 ∧ (get_image_metadata o p).1 = s2) ∧
    ((get_video_metadata vo p).1 = "Unknown" ∨
      ∃ y2 mo2 d2 hh2 mi2 ss2, vo = VideoMetaOutcome.creationTime y2 mo2 d2 hh2 mi2 ss2 ∧
        (get_video_metadata vo p).1 = strftime_colon y2 mo2 d2 hh2 mi2 ss2) := by
  refine ⟨rfl, rfl, rfl, rfl, rfl, rfl, rfl, ?_, ?_⟩
  · cases o <;> simp [get_image_metadata]
  · cases vo with
    | raised m2 => exact Or.inl rfl
    | noCreationTime => exact Or.inl rfl
    | creationTime a b c d2 e2 f2 => exact Or.inr ⟨a, b, c, d2, e2, f2, rfl, rfl⟩

/-- C5: an image whose payload fails to decode at lines 44-45 is a hard
failure: the dict is unchanged (the item is never registered as a
first-seen image) and the trace holds only prints ending in the reported
processing error — in particular no copy is performed. -/
theorem C5_decode_hard_failure (cfg : Config) (it : FileInput) (reg : Registry)
    (m : String) (him : it.ext ∈ cfg.image_extensions)
    (hh : it.hash = HashOutcome.raised m) :
    (process_file cfg it reg).1 = reg ∧
    (process_file cfg it reg).2 =
      ((get_image_metadata it.imeta it.file_path).2.map Effect.printMsg) ++
        [Effect.printMsg (errP it.file_path m)] := by
  rw [process_file_image_raised cfg it reg m him hh]
  exact ⟨rfl, rfl⟩

/-- C5, witness: the concrete undecodable JPEG. -/
theorem C5_decode_hard_failure_witness :
    (process_file cexCfg cexBad []).1 = ([] : Registry) ∧
    (process_file cexCfg cexBad []).2 =
      ((get_image_metadata cexBad.imeta cexBad.file_path).2.map Effect.printMsg) ++
        [Effect.printMsg (errP cexBad.file_path "cannot identify image file")] :=
  C5_decode_hard_failure cexCfg cexBad [] "cannot identify image file" (by decide) (by rfl)

/-- C6: for an item classified as Video the fingerprinter is never
consulted: the outcome of `process_file` is identical whatever the
decode/hash oracle would have answered. -/
theorem C6_video_not_fingerprinted (cfg : Config) (p e : String) (im : ImageMetaOutcome)
    (vm : VideoMetaOutcome) (h1 h2 : HashOutcome) (u : String) (reg : Registry)
    (hk : kindOf cfg e = MediaKind.video) :
    process_file cfg ⟨p, e, im, vm, h1, u⟩ reg =
      process_file cfg ⟨p, e, im, vm, h2, u⟩ reg := by
  have him : e ∉ cfg.image_extensions := by
    intro hmem
    unfold kindOf at hk
    rw [if_pos hmem] at hk
    exact MediaKind.noConfusion hk
  by_cases hv : e ∈ cfg.video_extensions
  · cases hfd : format_date_taken (get_video_metadata vm p).1 with
    | error msg =>
        rw [process_file_video_err cfg ⟨p, e, im, vm, h1, u⟩ reg msg him hv hfd,
          process_file_video_err cfg ⟨p, e, im, vm, h2, u⟩ reg msg him hv hfd]
    | ok d =>
        rw [process_file_video cfg ⟨p, e, im, vm, h1, u⟩ reg d him hv hfd,
          process_file_video cfg ⟨p, e, im, vm, h2, u⟩ reg d him hv hfd]
  · rw [process_file_ignored cfg ⟨p, e, im, vm, h1, u⟩ reg him hv,
      process_file_ignored cfg ⟨p, e, im, vm, h2, u⟩ reg him hv]

/-- C6, witness: a concrete `.mp4` item; a raising hash oracle and a
succeeding one give the same outcome. -/
theorem C6_video_not_fingerprinted_witness :
    process_file cexCfg ⟨"in/v.mp4", ".mp4", ImageMetaOutcome.noExif,
        VideoMetaOutcome.noCreationTime, HashOutcome.raised "boom", "u7"⟩ [] =
      process_file cexCfg ⟨"in/v.mp4", ".mp4", ImageMetaOutcome.noExif,
        VideoMetaOutcome.noCreationTime, HashOutcome.ok "aa", "u7"⟩ [] :=
  C6_video_not_fingerprinted cexCfg "in/v.mp4" ".mp4" ImageMetaOutcome.noExif
    VideoMetaOutcome.noCreationTime (HashOutcome.raised "boom") (HashOutcome.ok "aa")
    "u7" [] (by decide)

/-- C9: classification lower-cases the extension before matching
(line 106), so two walked file names whose extensions agree up to letter
case are classified identically and, fed to `process_file` with the
lower-cased extension as the pipeline does, are routed identically. -/
theorem C9_case_insensitive (cfg : Config) (f1 f2 p : String) (im : ImageMetaOutcome)
    (vm : VideoMetaOutcome) (hs : HashOutcome) (u : String) (reg : Registry)
    (h : pyLower (splitext f1).2 = pyLower (splitext f2).2) :
    classify cfg f1 = classify cfg f2 ∧
    process_file cfg ⟨p, pyLower (splitext f1).2, im, vm, hs, u⟩ reg =
      process_file cfg ⟨p, pyLower (splitext f2).2, im, vm, hs, u⟩ reg := by
  constructor
  · unfold classify
    rw [h]
  · rw [h]

/-- C9, witness: `photo.JPG` and `photo.jpg`. -/
theorem C9_case_insensitive_witness :
    classify cexCfg "photo.JPG" = classify cexCfg "photo.jpg" ∧
    process_file cexCfg ⟨"in/photo.JPG", pyLower (splitext "photo.JPG").2,
        ImageMetaOutcome.noExif, VideoMetaOutcome.noCreationTime,
        HashOutcome.ok "f00f", "u8"⟩ [] =
      process_file cexCfg ⟨"in/photo.JPG", pyLower (splitext "photo.jpg").2,
        ImageMetaOutcome.noExif, VideoMetaOutcome.noCreationTime,
        HashOutcome.ok "f00f", "u8"⟩ [] :=
  C9_case_insensitive cexCfg "photo.JPG" "photo.jpg" "in/photo.JPG"
    ImageMetaOutcome.noExif VideoMetaOutcome.noCreationTime (HashOutcome.ok "f00f")
    "u8" [] (by decide)

/-- C10, counterexample: two duplicates of the same fingerprint whose
capture timestamps differ (10:00 vs 11:00 on the same day) are stored
under the same `2023-05-01` date prefix, contrary to the claim's
conclusion. -/
theorem C10_counterexample :
    cexItem2.imeta = ImageMetaOutcome.dateField "2023:05:01 10:00:00" ∧
    cexItemB.imeta = ImageMetaOutcome.dateField "2023:05:01 11:00:00" ∧
    ¬ ("2023:05:01 10:00:00" = "2023:05:01 11:00:00") ∧
    Effect.copy "in/b.jpg" "out/images/2023-05-01-f00f_duplicate_1.jpg" ∈
      (process_file cexCfg cexItem2 cexReg0).2 ∧
    Effect.copy "in/d.jpg" "out/images/2023-05-01-f00f_duplicate_2.jpg" ∈
      (process_file cexCfg cexItemB (process_file cexCfg cexItem2 cexReg0).1).2 ∧
    dateComponent "2023-05-01-f00f_duplicate_1.jpg" =
      dateComponent "2023-05-01-f00f_duplicate_2.jpg" :=
  ⟨rfl, rfl, by decide, by decide, by decide, by decide⟩

/-- C10, amended: the date component of a duplicate's destination comes
from the duplicate's own extracted metadata (the registry stores no
timestamp at all), so two same-fingerprint duplicates whose formatted
capture dates `d1 ≠ d2` differ are stored under different date prefixes,
while timestamps on the same calendar day share the prefix. -/
theorem C10_duplicate_own_date (cfg : Config) (h : String) (it1 it2 : FileInput)
    (reg1 reg2 : Registry) (e1 e2 : RegistryEntry) (d1 d2 : String)
    (hg1 : GoodImage cfg h it1) (hf1 : regFind reg1 h = some e1)
    (hd1 : format_date_taken (get_image_metadata it1.imeta it1.file_path).1 = Except.ok d1)
    (hg2 : GoodImage cfg h it2) (hf2 : regFind reg2 h = some e2)
    (hd2 : format_date_taken (get_image_metadata it2.imeta it2.file_path).1 = Except.ok d2) :
    Effect.copy it1.file_path
        (pathJoin cfg.images_output_dir
          (d1 ++ "-" ++ h ++ "_duplicate_" ++ toString e1.duplicate_count ++ it1.ext))
      ∈ (process_file cfg it1 reg1).2 ∧
    Effect.copy it2.file_path
        (pathJoin cfg.images_output_dir
          (d2 ++ "-" ++ h ++ "_duplicate_" ++ toString e2.duplicate_count ++ it2.ext))
      ∈ (process_file cfg it2 reg2).2 := by
  obtain ⟨him1, hh1⟩ := hg1
  obtain ⟨him2, hh2⟩ := hg2
  constructor
  · rw [process_file_image_dup cfg it1 reg1 h e1 d1 him1 hh1 hf1 hd1]
    simp
  · rw [process_file_image_dup cfg it2 reg2 h e2 d2 him2 hh2 hf2 hd2]
    simp

/-- C10, witness: the two concrete duplicates applied to the amended
theorem. -/
theorem C10_duplicate_own_date_witness :
    Effect.copy cexItem2.file_path
        (pathJoin cexCfg.images_output_dir
          ("2023-05-01" ++ "-" ++ "f00f" ++ "_duplicate_" ++ toString (1 : Nat) ++ cexItem2.ext))
      ∈ (process_file cexCfg cexItem2 cexReg0).2 ∧
    Effect.copy cexItemB.file_path
        (pathJoin cexCfg.images_output_dir
          ("2023-05-01" ++ "-" ++ "f00f" ++ "_duplicate_" ++ toString (1 : Nat) ++ cexItemB.ext))
      ∈ (process_file cexCfg cexItemB cexReg0).2 :=
  C10_duplicate_own_date cexCfg "f00f" cexItem2 cexItemB cexReg0 cexReg0
    ⟨"in/a.jpg", 1⟩ ⟨"in/a.jpg", 1⟩ "2023-05-01" "2023-05-01"
    (by decide) (by decide) (by rfl) (by decide) (by decide) (by rfl)

/-- C3: every copy performed by `process_file` (under the configuration
and lower-cased extension that `process_files` supplies) goes to
`{output}/images` for an image and `{output}/videos` for a video, under
a name of the form `{date}-{identity}[_duplicate_{ordinal}]{ext}`, where
the date component is the item's own timestamp rendered `YYYY-MM-DD`
when known and the literal `unknown` otherwise, the identity is the
computed fingerprint for images and the item's uuid4 draw for videos,
and the extension is the source file's extension lower-cased. -/
theorem C3_placement_form (out : String) (it : FileInput) (reg : Registry)
    (fname src dst : String)
    (hext : it.ext = pyLower (splitext fname).2)
    (hc : Effect.copy src dst ∈ (process_file (process_files_config out) it reg).2) :
    src = it.file_path ∧ it.ext = pyLower (splitext fname).2 ∧
    ∃ sub d name, dst = pathJoin sub name ∧
      ((it.ext ∈ (process_files_config out).image_extensions ∧
          sub = pathJoin out "images" ∧
          DateComponentOf (get_image_metadata it.imeta it.file_path).1 d ∧
          ∃ hsh, it.hash = HashOutcome.ok hsh ∧
            (name = d ++ "-" ++ hsh ++ it.ext ∨
             ∃ n : Nat, name = d ++ "-" ++ hsh ++ "_duplicate_" ++ toString n ++ it.ext)) ∨
       (it.ext ∉ (process_files_config out).image_extensions ∧
          it.ext ∈ (process_files_config out).video_extensions ∧
          sub = pathJoin out "videos" ∧
          DateComponentOf (get_video_metadata it.vmeta it.file_path).1 d ∧
          name = d ++ "-" ++ it.uuid ++ it.ext)) := by
  by_cases him : it.ext ∈ (process_files_config out).image_extensions
  · cases hh : it.hash with
    | raised m =>
        rw [process_file_image_raised (process_files_config out) it reg m him hh] at hc
        simp at hc
    | ok hsh =>
        cases hf : regFind reg hsh with
        | none =>
            cases hfd : format_date_taken (get_image_metadata it.imeta it.file_path).1 with
            | error msg =>
                rw [process_file_image_first_err (process_files_config out) it reg hsh msg
                  him hh hf hfd] at hc
                simp at hc
            | ok d =>
                rw [process_file_image_first (process_files_config out) it reg hsh d
                  him hh hf hfd] at hc
                simp only [List.mem_append, List.mem_map, List.mem_cons,
                  List.mem_singleton, List.not_mem_nil, or_false] at hc
                rcases hc with ⟨a, _, hpm⟩ | hcpy | hpm2
                · exact absurd hpm (by simp)
                · obtain ⟨hsrc, hdst⟩ := Effect.copy.inj hcpy
                  refine ⟨hsrc, hext, pathJoin out "images", d,
                    d ++ "-" ++ hsh ++ it.ext, hdst, Or.inl ⟨him, rfl,
                    format_ok_DateComponentOf _ _ hfd, hsh, rfl, Or.inl rfl⟩⟩
                · exact absurd hpm2 (by simp)
        | some entry =>
            cases hfd : format_date_taken (get_image_metadata it.imeta it.file_path).1 with
            | error msg =>
                rw [process_file_image_dup_err (process_files_config out) it reg hsh entry msg
                  him hh hf hfd] at hc
                simp at hc
            | ok d =>
                rw [process_file_image_dup (process_files_config out) it reg hsh entry d
                  him hh hf hfd] at hc
                simp only [List.mem_append, List.mem_map, List.mem_cons,
                  List.mem_singleton, List.not_mem_nil, or_false] at hc
                rcases hc with ⟨a, _, hpm⟩ | hpm1 | hcpy | hpm2
                · exact absurd hpm (by simp)
                · exact absurd hpm1 (by simp)
                · obtain ⟨hsrc, hdst⟩ := Effect.copy.inj hcpy
                  refine ⟨hsrc, hext, pathJoin out "images", d,
                    d ++ "-" ++ hsh ++ "_duplicate_" ++ toString entry.duplicate_count ++ it.ext,
                    hdst, Or.inl ⟨him, rfl, format_ok_DateComponentOf _ _ hfd, hsh, rfl,
                    Or.inr ⟨entry.duplicate_count, rfl⟩⟩⟩
                · exact absurd hpm2 (by simp)
  · by_cases hv : it.ext ∈ (process_files_config out).video_extensions
    · cases hfd : format_date_taken (get_video_metadata it.vmeta it.file_path).1 with
      | error msg =>
          rw [process_file_video_err (process_files_config out) it reg msg him hv hfd] at hc
          simp at hc
      | ok d =>
          rw [process_file_video (process_files_config out) it reg d him hv hfd] at hc
          simp only [List.mem_append, List.mem_map, List.mem_cons,
            List.mem_singleton, List.not_mem_nil, or_false] at hc
          rcases hc with ⟨a, _, hpm⟩ | hcpy | hpm2
          · exact absurd hpm (by simp)
          · obtain ⟨hsrc, hdst⟩ := Effect.copy.inj hcpy
            refine ⟨hsrc, hext, pathJoin out "videos", d,
              d ++ "-" ++ it.uuid ++ it.ext, hdst, Or.inr ⟨him, hv, rfl,
              format_ok_DateComponentOf _ _ hfd, rfl⟩⟩
          · exact absurd hpm2 (by simp)
    · rw [process_file_ignored (process_files_config out) it reg him hv] at hc
      simp at hc

/-- C3, witness: the concrete video with missing creation time, walked
as `CLIP.MP4`, is copied to `out/videos/unknown-uuid1.mp4`. -/
theorem C3_placement_form_witness :
    "in/CLIP.MP4" = cexVid.file_path ∧ cexVid.ext = pyLower (splitext "CLIP.MP4").2 ∧
    ∃ sub d name, "out/videos/unknown-uuid1.mp4" = pathJoin sub name ∧
      ((cexVid.ext ∈ (process_files_config "out").image_extensions ∧
          sub = pathJoin "out" "images" ∧
          DateComponentOf (get_image_metadata cexVid.imeta cexVid.file_path).1 d ∧
          ∃ hsh, cexVid.hash = HashOutcome.ok hsh ∧
            (name = d ++ "-" ++ hsh ++ cexVid.ext ∨
             ∃ n : Nat, name = d ++ "-" ++ hsh ++ "_duplicate_" ++ toString n ++ cexVid.ext)) ∨
       (cexVid.ext ∉ (process_files_config "out").image_extensions ∧
          cexVid.ext ∈ (process_files_config "out").video_extensions ∧
          sub = pathJoin "out" "videos" ∧
          DateComponentOf (get_video_metadata cexVid.vmeta cexVid.file_path).1 d ∧
          name = d ++ "-" ++ cexVid.uuid ++ cexVid.ext)) :=
  C3_placement_form "out" cexVid [] "CLIP.MP4" "in/CLIP.MP4"
    "out/videos/unknown-uuid1.mp4" (by decide) (by decide)

end GTakeout
